import Mathlib

/-!
Verification of the dnsfilter web interface (src/dnsfilter/web.py).

The file embeds the resource tree, the CRUD handlers of the
`DNSFilterWebservice`, and the content-negotiated response encoder as
executable Lean functions, together with a model of the external
whitelist store consumed through its `contains / add / delete / get_all`
capability, and proves the behavioural properties of the specification
against them.
-/

namespace DnsFilter

/-- HTTP methods handled by the web interface. -/
inductive Method where
  | get | post | put | delete
deriving DecidableEq

/-- A parsed HTTP request: method, path, the argument mapping
(`request.args`: parameter name to list of values), and the value of the
Content-Type header (`none` when the header is absent). -/
structure Request where
  method : Method
  path : String
  args : List (String × List String)
  contentType : Option String
deriving DecidableEq

/-- An HTTP response as assembled by the handlers: status code
(`request.setResponseCode`, default 200), body, and the headers the
handler sets (`request.setHeader`). -/
structure Response where
  status : Nat
  body : String
  headers : List (String × String)
deriving DecidableEq

/-! ### The whitelist store

Modelled from the spec: the `whitelists` module is not under src/; the
spec (sections 2, 4.4) gives its capability set
`contains(name) -> bool`, `add(name)` (idempotent),
`delete(name)` (precondition: present), and
`get_all() -> sequence<name>`.  The state is the sequence `get_all`
yields. -/
abbrev Store := List String

/-- Modelled from the spec: membership test of the whitelist store. -/
def wlContains (s : Store) (x : String) : Bool := s.contains x

/-- Modelled from the spec: idempotent add of the whitelist store — a
present domain is left alone, an absent one is appended. -/
def wlAdd (s : Store) (x : String) : Store :=
  if s.contains x then s else s ++ [x]

/-- Modelled from the spec: delete of the whitelist store — the name is
no longer present afterwards. -/
def wlDelete (s : Store) (x : String) : Store :=
  s.filter (fun y => y != x)

/-- Modelled from the spec: the full listing of the whitelist store. -/
def wlGetAll (s : Store) : List String := s

/-! ### Python string primitives used by web.py -/

/-- Auxiliary scan for `pyReplace`, structurally recursive on a fuel
bound (one unit per character examined, so the input length is enough
fuel for any non-empty pattern). -/
def pyReplaceAux (pat rep : List Char) : Nat → List Char → List Char
  | 0, l => l
  | _ + 1, [] => []
  | fuel + 1, c :: cs =>
    if pat.isPrefixOf (c :: cs) then
      rep ++ pyReplaceAux pat rep fuel (List.drop pat.length (c :: cs))
    else
      c :: pyReplaceAux pat rep fuel cs

/-- Python `s.replace(pat, rep)` for a non-empty pattern: every
non-overlapping occurrence is replaced, scanning left to right
(web.py line 130 uses it with the pattern "/domains/"). -/
def pyReplace (s pat rep : String) : String :=
  String.mk (pyReplaceAux pat.toList rep.toList s.toList.length s.toList)

/-- Python `s.startswith(p)`. -/
def pyStartsWith (s p : String) : Bool :=
  p.toList.isPrefixOf s.toList

/-- Whether `pat` occurs as a contiguous substring (Python `pat in s`);
used to state for which paths the replace-based domain extraction
coincides with stripping the leading prefix. -/
def hasOccur (pat : List Char) : List Char → Bool
  | [] => pat.isEmpty
  | c :: cs => pat.isPrefixOf (c :: cs) || hasOccur pat cs

/-- Auxiliary scan for `pySplitChar`: split a character list at every
separator, accumulating the current piece in reverse. -/
def splitCharAux (sep : Char) : List Char → List Char → List String
  | [], acc => [String.mk acc.reverse]
  | c :: cs, acc =>
    if c = sep then String.mk acc.reverse :: splitCharAux sep cs []
    else splitCharAux sep cs (c :: acc)

/-- Python `s.split(sep)` for a one-character separator; the transport
splits `request.path` on the slash to build the segment list. -/
def pySplitChar (s : String) (sep : Char) : List String :=
  splitCharAux sep s.toList []

/-- The path segments the transport routes on: the pieces of the path
between slashes, without the empty piece before the leading slash. -/
def pathSegments (p : String) : List String :=
  (pySplitChar p '/').drop 1

/-! ### The response encoder -/

/-- The value a render method returns before encoding: a plain string or
a list of strings (the listing of the store). -/
inductive RespValue where
  | str : String → RespValue
  | strs : List String → RespValue
deriving DecidableEq

/-- A lowercase hexadecimal digit. -/
def hexDigit (n : Nat) : Char :=
  if n < 10 then Char.ofNat (48 + n) else Char.ofNat (87 + n)

/-- Four lowercase hexadecimal digits of a 16-bit code unit. -/
def u16hex (n : Nat) : List Char :=
  [hexDigit (n / 4096 % 16), hexDigit (n / 256 % 16),
   hexDigit (n / 16 % 16), hexDigit (n % 16)]

/-- Modelled from the library: the escaping Python `json.dumps` (module
`json`, external, default `ensure_ascii`) applies to one character of a
string: the named escapes, `\uXXXX` for the other characters outside
printable ASCII, and surrogate pairs above the basic plane. -/
def jsonEscapeChar (c : Char) : List Char :=
  if c = '"' then ['\\', '"']
  else if c = '\\' then ['\\', '\\']
  else if c = '\n' then ['\\', 'n']
  else if c = '\r' then ['\\', 'r']
  else if c = '\t' then ['\\', 't']
  else if c.toNat = 8 then ['\\', 'b']
  else if c.toNat = 12 then ['\\', 'f']
  else if c.toNat < 32 ∨ c.toNat > 126 then
    if c.toNat < 65536 then '\\' :: 'u' :: u16hex c.toNat
    else
      ('\\' :: 'u' :: u16hex (55296 + (c.toNat - 65536) / 1024)) ++
      ('\\' :: 'u' :: u16hex (56320 + (c.toNat - 65536) % 1024))
  else [c]

/-- Modelled from the library: Python `json.dumps` on a string. -/
def jsonDumpsStr (s : String) : String :=
  String.mk ('"' :: ((s.toList.map jsonEscapeChar).flatten ++ ['"']))

/-- Modelled from the library: Python `json.dumps` on the value shapes
the handlers produce; a list becomes a JSON array with the default
`", "` item separator. -/
def jsonDumps : RespValue → String
  | .str s => jsonDumpsStr s
  | .strs l => "[" ++ String.intercalate ", " (l.map jsonDumpsStr) ++ "]"

/-- web.py `_get_response_str` (lines 150-153): a string is returned
unchanged (`str` on a `basestring` is the identity); an iterable is
joined with newlines and one trailing newline is appended. -/
def getResponseStr : RespValue → String
  | .str s => s
  | .strs l => String.intercalate "\n" l ++ "\n"

/-- web.py `_get_response` (lines 155-161): JSON-encode exactly when the
request Content-Type header equals "application/json", otherwise use the
plain-text encoding. -/
def getResponse (contentType : Option String) (data : RespValue) : String :=
  if contentType = some "application/json" then jsonDumps data
  else getResponseStr data

/-! ### The CRUD handlers of DNSFilterWebservice -/

/-- Status code 200, `http.OK`, the default response code. -/
def OK : Nat := 200

/-- Status code 400, `http.BAD_REQUEST`. -/
def BAD_REQUEST : Nat := 400

/-- Status code 404, `http.NOT_FOUND`. -/
def NOT_FOUND : Nat := 404

/-- Status code 501, `http.NOT_IMPLEMENTED`. -/
def NOT_IMPLEMENTED : Nat := 501

/-- What a render method produces before the encoder runs: the status
code, the returned value, and the headers set on the request. -/
structure RenderResult where
  status : Nat
  value : RespValue
  headers : List (String × String)
deriving DecidableEq

/-- Look up `request.args[k]`: the list of values bound to a parameter
name, if the key is present. -/
def argValues (args : List (String × List String)) (k : String) :
    Option (List String) :=
  (args.find? (fun p => p.1 == k)).map (fun p => p.2)

/-- web.py `DNSFilterWebservice.render_POST` (lines 86-106): on the
exact collection path "/domains", a missing `domain` argument is a
BAD_REQUEST; otherwise the first value of the argument is added to the
store when absent, the Location header is set to the item path and the
body is "CREATED\n"; any other path is a NOT_FOUND.  (The transport
never binds an argument to an empty value list, so the head of the
value list is total here; the empty-list default is never reached.) -/
def render_POST (storeState : Store) (req : Request) :
    RenderResult × Store :=
  if req.path = "/domains" then
    match argValues req.args "domain" with
    | none => (⟨BAD_REQUEST, .str "BAD REQUEST\n", []⟩, storeState)
    | some vs =>
      let domain := vs.headD ""
      let wl' :=
        if wlContains storeState domain then storeState
        else wlAdd storeState domain
      (⟨OK, .str "CREATED\n",
        [("Location", "/domains/" ++ domain)]⟩, wl')
  else
    (⟨NOT_FOUND, .str "NOT FOUND\n", []⟩, storeState)

/-- web.py `DNSFilterWebservice.render_GET` (lines 108-123): on the
exact collection path the listing of the store is returned; any other
path is a NOT_FOUND. -/
def render_GET (storeState : Store) (req : Request) :
    RenderResult × Store :=
  if req.path = "/domains" then
    (⟨OK, .strs (wlGetAll storeState), []⟩, storeState)
  else
    (⟨NOT_FOUND, .str "NOT FOUND\n", []⟩, storeState)

/-- web.py `DNSFilterWebservice.render_DELETE` (lines 125-141): on a
path starting with "/domains/", the domain is extracted with
`path.replace("/domains/", "")` and deleted when present; otherwise a
NOT_FOUND. -/
def render_DELETE (storeState : Store) (req : Request) :
    RenderResult × Store :=
  if pyStartsWith req.path "/domains/" then
    let domain := pyReplace req.path "/domains/" ""
    if wlContains storeState domain then
      (⟨OK, .str "DELETED\n", []⟩, wlDelete storeState domain)
    else
      (⟨NOT_FOUND, .str "NOT FOUND\n", []⟩, storeState)
  else
    (⟨NOT_FOUND, .str "NOT FOUND\n", []⟩, storeState)

/-- web.py `DNSFilterWebservice.render_PUT` (lines 143-145): always a
NOT_IMPLEMENTED, the store is untouched. -/
def render_PUT (storeState : Store) (_req : Request) :
    RenderResult × Store :=
  (⟨NOT_IMPLEMENTED, .str "NOT IMPLEMENTED\n", []⟩, storeState)

/-! ### The resource tree -/

/-- The resources of the tree: the root, its static children `domains`
and `admin` (web.py lines 49-50), the default welcome handler, and the
framework's NoResource for an unresolved child of a childless
resource. -/
inductive Res where
  | root | domains | admin | welcome | noResource
deriving DecidableEq

/-- Child resolution (twisted `getChildWithDefault`): the statically
registered children are consulted first, then the `getChild` overrides —
`RootWebResource.getChild` (lines 52-53) returns the welcome handler for
any other segment, `DNSFilterWebservice.getChild` (lines 83-84) returns
the domains service again; the welcome and admin handlers have neither
children nor an override, so the framework default produces its
NoResource. -/
def getChildWithDefault : Res → String → Res
  | .root, seg =>
    if seg = "domains" then .domains
    else if seg = "admin" then .admin
    else .welcome
  | .domains, _ => .domains
  | _, _ => .noResource

/-- Only the framework NoResource stops the traversal early. -/
def isLeaf : Res → Bool
  | .noResource => true
  | _ => false

/-- Path traversal (twisted `getChildForRequest`): consume path segments
until none remain or a leaf is reached. -/
def resolveSegs : Res → List String → Res
  | r, [] => r
  | r, seg :: rest =>
    if isLeaf r then r else resolveSegs (getChildWithDefault r seg) rest

/-- Outcome of rendering a request: a full response, or an
UnsupportedMethod escaping to the transport because the resolved
resource defines no render method for the request's method (only the
domains service handles POST, PUT and DELETE). -/
inductive Outcome where
  | resp : Response → Outcome
  | unsupportedMethod : Method → Outcome
deriving DecidableEq

/-- The status code of an outcome, when the repository code produced a
response at all. -/
def Outcome.statusOf : Outcome → Option Nat
  | .resp r => some r.status
  | .unsupportedMethod _ => none

/-- The body of an outcome, when the repository code produced a
response at all. -/
def Outcome.bodyOf : Outcome → Option String
  | .resp r => some r.body
  | .unsupportedMethod _ => none

/-- Modelled from the framework: the body of twisted's NoResource error
page; only its 404 status code is relied on by the specification. -/
def noResourceBody : String := "No Such Resource: No such child resource."

/-- Render dispatch of the repository's resources: twisted
`Resource.render` picks `render_METHOD`, and `WebResource.render`
(web.py lines 35-39) encodes the returned value with `_get_response`.
The welcome and admin handlers only define `render_GET` (lines 61-62,
70-71); the framework NoResource answers every method with its 404
page and is not wrapped by the repository's encoder. -/
def renderRes (r : Res) (storeState : Store) (req : Request) :
    Outcome × Store :=
  match r, req.method with
  | .welcome, .get =>
    (.resp ⟨OK, getResponse req.contentType (.str "WELCOME\n"), []⟩,
     storeState)
  | .admin, .get =>
    (.resp ⟨OK,
      getResponse req.contentType (.str "ADMIN UI NOT IMPLEMENTED\n"),
      []⟩, storeState)
  | .domains, m =>
    let res :=
      match m with
      | .get => render_GET storeState req
      | .post => render_POST storeState req
      | .put => render_PUT storeState req
      | .delete => render_DELETE storeState req
    (.resp ⟨res.1.status, getResponse req.contentType res.1.value,
      res.1.headers⟩, res.2)
  | .noResource, _ =>
    (.resp ⟨NOT_FOUND, noResourceBody, []⟩, storeState)
  | _, m => (.unsupportedMethod m, storeState)

/-- Handle one request end to end: resolve the path through the resource
tree starting at the `RootWebResource` and render with the resolved
resource; the whitelist store state threads through. -/
def handle (storeState : Store) (req : Request) : Outcome × Store :=
  renderRes (resolveSegs .root (pathSegments req.path)) storeState req

/-! ### Helper lemmas -/

/-- Without the JSON media type the encoder returns a string value
unchanged. -/
lemma getResponse_plain (ct : Option String) (b : String)
    (hct : ct ≠ some "application/json") :
    getResponse ct (.str b) = b := by
  simp [getResponse, getResponseStr, hct]

/-- Without the JSON media type the encoder joins a list value with
newlines and appends one trailing newline. -/
lemma getResponse_plain_strs (ct : Option String) (l : List String)
    (hct : ct ≠ some "application/json") :
    getResponse ct (.strs l) = String.intercalate "\n" l ++ "\n" := by
  simp [getResponse, getResponseStr, hct]

/-- The domains service resolves every remaining path segment to
itself. -/
lemma resolveSegs_domains (l : List String) :
    resolveSegs .domains l = .domains := by
  induction l with
  | nil => rfl
  | cons a as ih => simpa [resolveSegs, isLeaf, getChildWithDefault] using ih

/-- Any path whose first segment is `domains` resolves to the domains
service, whatever follows. -/
lemma resolve_root_domains (rest : List String) :
    resolveSegs .root ("domains" :: rest) = .domains := by
  simp [resolveSegs, isLeaf, getChildWithDefault, resolveSegs_domains]

/-- A POST to the collection path reaches `render_POST` of the domains
service and its value is encoded with the request's Content-Type. -/
lemma handle_post_domains (s : Store) (args : List (String × List String))
    (ct : Option String) :
    handle s ⟨.post, "/domains", args, ct⟩ =
      ((.resp ⟨(render_POST s ⟨.post, "/domains", args, ct⟩).1.status,
        getResponse ct (render_POST s ⟨.post, "/domains", args, ct⟩).1.value,
        (render_POST s ⟨.post, "/domains", args, ct⟩).1.headers⟩ : Outcome),
       (render_POST s ⟨.post, "/domains", args, ct⟩).2) := by
  have hres : resolveSegs .root (pathSegments "/domains") = .domains := rfl
  simp [handle, hres, renderRes]

/-- `render_POST` with a present `domain` argument: the first value is
added when absent, the Location header names the item path, the status
stays 200 and the returned body value is "CREATED\n". -/
lemma render_POST_arg (s : Store) (args : List (String × List String))
    (ct : Option String) (d : String) (vs : List String)
    (hargs : argValues args "domain" = some (d :: vs)) :
    render_POST s ⟨.post, "/domains", args, ct⟩ =
      (⟨OK, .str "CREATED\n", [("Location", "/domains/" ++ d)]⟩,
       if d ∈ s then s else s ++ [d]) := by
  by_cases hmem : d ∈ s <;>
    simp [render_POST, hargs, wlContains, wlAdd, hmem]

/-- A GET to the collection path returns the encoded store listing with
status 200 and leaves the store as it is. -/
lemma handle_get_domains (s : Store) (args : List (String × List String))
    (ct : Option String) :
    handle s ⟨.get, "/domains", args, ct⟩ =
      (.resp ⟨OK, getResponse ct (.strs s), []⟩, s) := by
  have hres : resolveSegs .root (pathSegments "/domains") = .domains := rfl
  simp [handle, hres, renderRes, render_GET, wlGetAll]

/-- When the pattern does not occur in the input, the replace scan
leaves the input unchanged, for any fuel. -/
lemma pyReplaceAux_no_occur (pat rep : List Char) (fuel : Nat) :
    ∀ l, hasOccur pat l = false → pyReplaceAux pat rep fuel l = l := by
  induction fuel with
  | zero => intro l _; rfl
  | succ n ih =>
    intro l h
    match l with
    | [] => rfl
    | c :: cs =>
      rw [hasOccur] at h
      have h2 := h
      simp only [Bool.or_eq_false_iff] at h2
      simp [pyReplaceAux, h2.1, ih cs h2.2]

/-- Appending strings appends their character lists. -/
lemma toList_append (s t : String) :
    (s ++ t).toList = s.toList ++ t.toList := by
  simp [String.toList]

/-- One unfolding step of the replace scan. -/
lemma pyReplaceAux_step (pat rep : List Char) (fuel : Nat) (c : Char)
    (cs : List Char) :
    pyReplaceAux pat rep (fuel + 1) (c :: cs) =
      if pat.isPrefixOf (c :: cs) then
        rep ++ pyReplaceAux pat rep fuel (List.drop pat.length (c :: cs))
      else c :: pyReplaceAux pat rep fuel cs := rfl

/-- When "/domains/" does not occur in the remainder `x`, replacing
"/domains/" by the empty string in "/domains/" ++ x strips exactly the
leading prefix. -/
lemma pyReplace_strip (x : String)
    (hocc : hasOccur "/domains/".toList x.toList = false) :
    pyReplace ("/domains/" ++ x) "/domains/" "" = x := by
  have hlist : ("/domains/" ++ x).toList
      = '/' :: 'd' :: 'o' :: 'm' :: 'a' :: 'i' :: 'n' :: 's' :: '/'
        :: x.toList := by
    rw [toList_append]; rfl
  unfold pyReplace
  rw [hlist]
  have hlen : ('/' :: 'd' :: 'o' :: 'm' :: 'a' :: 'i' :: 'n' :: 's' :: '/'
      :: x.toList).length = x.toList.length + 8 + 1 := by simp
  rw [hlen, pyReplaceAux_step]
  have hpre : List.isPrefixOf "/domains/".toList
      ('/' :: 'd' :: 'o' :: 'm' :: 'a' :: 'i' :: 'n' :: 's' :: '/'
        :: x.toList) = true := by
    have := List.prefix_append "/domains/".toList x.toList
    exact List.isPrefixOf_iff_prefix.mpr this
  rw [if_pos hpre]
  have hdrop : List.drop ("/domains/".toList.length)
      ('/' :: 'd' :: 'o' :: 'm' :: 'a' :: 'i' :: 'n' :: 's' :: '/'
        :: x.toList) = x.toList := rfl
  rw [hdrop]
  rw [pyReplaceAux_no_occur _ _ _ _ hocc]
  rfl

/-- The segments of an item path: `domains` followed by the split of the
remainder. -/
lemma segments_domains_item (x : String) :
    pathSegments ("/domains/" ++ x)
      = "domains" :: splitCharAux '/' x.toList [] := by
  have hlist : ("/domains/" ++ x).toList
      = '/' :: 'd' :: 'o' :: 'm' :: 'a' :: 'i' :: 'n' :: 's' :: '/'
        :: x.toList := by
    rw [toList_append]; rfl
  simp [pathSegments, pySplitChar, String.toList, hlist, splitCharAux]

/-- A DELETE to an item path reaches `render_DELETE` of the domains
service and its value is encoded with the request's Content-Type. -/
lemma handle_delete_domains_item (s : Store) (x : String)
    (args : List (String × List String)) (ct : Option String) :
    handle s ⟨.delete, "/domains/" ++ x, args, ct⟩ =
      ((.resp ⟨(render_DELETE s ⟨.delete, "/domains/" ++ x, args, ct⟩).1.status,
        getResponse ct
          (render_DELETE s ⟨.delete, "/domains/" ++ x, args, ct⟩).1.value,
        (render_DELETE s ⟨.delete, "/domains/" ++ x, args, ct⟩).1.headers⟩
          : Outcome),
       (render_DELETE s ⟨.delete, "/domains/" ++ x, args, ct⟩).2) := by
  rw [handle, segments_domains_item, resolve_root_domains]
  simp [renderRes]

/-- Every item path starts with the item prefix. -/
lemma starts_domains_item (x : String) :
    pyStartsWith ("/domains/" ++ x) "/domains/" = true := by
  have hlist : ("/domains/" ++ x).toList
      = '/' :: 'd' :: 'o' :: 'm' :: 'a' :: 'i' :: 'n' :: 's' :: '/'
        :: x.toList := by
    rw [toList_append]; rfl
  rw [pyStartsWith, hlist]
  exact List.isPrefixOf_iff_prefix.mpr
    (List.prefix_append "/domains/".toList x.toList)

/-- `render_DELETE` on an item path whose remainder does not contain
"/domains/" again: the remainder itself is checked against the store and
deleted when present. -/
lemma render_DELETE_item (s : Store) (x : String)
    (args : List (String × List String)) (ct : Option String)
    (hocc : hasOccur "/domains/".toList x.toList = false) :
    render_DELETE s ⟨.delete, "/domains/" ++ x, args, ct⟩ =
      (if x ∈ s then (⟨OK, .str "DELETED\n", []⟩, wlDelete s x)
       else (⟨NOT_FOUND, .str "NOT FOUND\n", []⟩, s)) := by
  by_cases hmem : x ∈ s <;>
    simp [render_DELETE, starts_domains_item, pyReplace_strip x hocc,
      wlContains, hmem]

/-! ### The claims -/

/-- C1 (amended): POST /domains with argument domain=x is idempotent:
for every store state in which x occurs at most once (the store
invariant) and every request without the JSON Content-Type, handling the
POST twice in succession leaves exactly one entry x in the store as
`get_all` observes it, and both POST requests report success (status
200) with body "CREATED\n". -/
theorem c1_post_domains_idempotent (s : Store) (x : String)
    (ct : Option String) (hinv : s.count x ≤ 1)
    (hct : ct ≠ some "application/json") :
    (handle s ⟨.post, "/domains", [("domain", [x])], ct⟩).1
        = .resp ⟨200, "CREATED\n", [("Location", "/domains/" ++ x)]⟩ ∧
    (handle (handle s ⟨.post, "/domains", [("domain", [x])], ct⟩).2
        ⟨.post, "/domains", [("domain", [x])], ct⟩).1
        = .resp ⟨200, "CREATED\n", [("Location", "/domains/" ++ x)]⟩ ∧
    (wlGetAll (handle (handle s ⟨.post, "/domains", [("domain", [x])], ct⟩).2
        ⟨.post, "/domains", [("domain", [x])], ct⟩).2).count x = 1 := by
  have hbody := getResponse_plain ct "CREATED\n" hct
  have hargs : argValues [("domain", [x])] "domain" = some (x :: []) := rfl
  refine ⟨?_, ?_, ?_⟩
  · rw [handle_post_domains, render_POST_arg s _ ct x [] hargs]
    simp [OK, hbody]
  · rw [handle_post_domains, handle_post_domains,
      render_POST_arg s _ ct x [] hargs]
    rw [render_POST_arg _ _ ct x [] hargs]
    simp [OK, hbody]
  · rw [handle_post_domains, handle_post_domains,
      render_POST_arg s _ ct x [] hargs]
    rw [render_POST_arg _ _ ct x [] hargs]
    simp only [wlGetAll]
    by_cases hmem : x ∈ s
    · have h1 : 0 < s.count x := List.count_pos_iff.mpr hmem
      simp [hmem]
      omega
    · have h0 : s.count x = 0 := List.count_eq_zero.mpr hmem
      have h2 : x ∈ s ++ [x] := by simp
      simp [hmem, h2, List.count_append, h0]

/-- C1 witness: the idempotence theorem at the empty store, domain
"example.com", no Content-Type header. -/
theorem c1_witness :
    ([] : Store).count "example.com" ≤ 1 ∧
    (none : Option String) ≠ some "application/json" ∧
    ((handle [] ⟨.post, "/domains", [("domain", ["example.com"])], none⟩).1
        = .resp ⟨200, "CREATED\n",
            [("Location", "/domains/" ++ "example.com")]⟩ ∧
     (handle
        (handle [] ⟨.post, "/domains", [("domain", ["example.com"])], none⟩).2
        ⟨.post, "/domains", [("domain", ["example.com"])], none⟩).1
        = .resp ⟨200, "CREATED\n",
            [("Location", "/domains/" ++ "example.com")]⟩ ∧
     (wlGetAll (handle
        (handle [] ⟨.post, "/domains", [("domain", ["example.com"])], none⟩).2
        ⟨.post, "/domains", [("domain", ["example.com"])], none⟩).2).count
          "example.com" = 1) :=
  ⟨by decide, by decide,
    c1_post_domains_idempotent [] "example.com" none (by decide) (by decide)⟩

/-- C1 counterexample: both POSTs succeed, but the body they report is
"CREATED\n", not "CREATED" as the claim states. -/
theorem c1_counterexample :
    (handle [] ⟨.post, "/domains", [("domain", ["a"])], none⟩).1.bodyOf
        = some "CREATED\n" ∧
    (handle (handle [] ⟨.post, "/domains", [("domain", ["a"])], none⟩).2
        ⟨.post, "/domains", [("domain", ["a"])], none⟩).1.bodyOf
        = some "CREATED\n" ∧
    ("CREATED\n" : String) ≠ "CREATED" := by decide

/-- C2 (amended): for every domain name x in which "/domains/" does not
occur, if x is not present in the store, DELETE /domains/x (without the
JSON Content-Type) returns status 404 with body "NOT FOUND\n" and the
store is unchanged. -/
theorem c2_delete_absent_not_found (s : Store) (x : String)
    (ct : Option String)
    (hocc : hasOccur "/domains/".toList x.toList = false)
    (habs : x ∉ s) (hct : ct ≠ some "application/json") :
    handle s ⟨.delete, "/domains/" ++ x, [], ct⟩
        = (.resp ⟨404, "NOT FOUND\n", []⟩, s) := by
  rw [handle_delete_domains_item, render_DELETE_item s x [] ct hocc]
  simp [habs, NOT_FOUND, getResponse_plain ct _ hct]

/-- C2 witness: deleting the absent domain "nosuch.example" from the
empty store. -/
theorem c2_witness :
    hasOccur "/domains/".toList "nosuch.example".toList = false ∧
    "nosuch.example" ∉ ([] : Store) ∧
    (none : Option String) ≠ some "application/json" ∧
    handle [] ⟨.delete, "/domains/" ++ "nosuch.example", [], none⟩
        = (.resp ⟨404, "NOT FOUND\n", []⟩, []) :=
  ⟨by decide, by decide, by decide,
    c2_delete_absent_not_found [] "nosuch.example" none (by decide)
      (by decide) (by decide)⟩

/-- C2 counterexample: the domain name "a/domains/b" is not in the store
["ab"], yet DELETE /domains/a/domains/b answers 200 "DELETED\n" and
empties the store — `path.replace` removes the second "/domains/" too,
so the store is asked about "ab". -/
theorem c2_counterexample :
    "a/domains/b" ∉ (["ab"] : Store) ∧
    handle ["ab"] ⟨.delete, "/domains/a/domains/b", [], none⟩
        = (.resp ⟨200, "DELETED\n", []⟩, []) := by decide

/-- C3 (amended): POST /domains whose argument mapping has no "domain"
key (and no JSON Content-Type) returns status 400 with body
"BAD REQUEST\n", and the store is unchanged. -/
theorem c3_post_missing_domain (s : Store)
    (args : List (String × List String)) (ct : Option String)
    (hargs : argValues args "domain" = none)
    (hct : ct ≠ some "application/json") :
    handle s ⟨.post, "/domains", args, ct⟩
        = (.resp ⟨400, "BAD REQUEST\n", []⟩, s) := by
  rw [handle_post_domains]
  simp [render_POST, hargs, BAD_REQUEST, getResponse_plain ct _ hct]

/-- C3 witness: a POST carrying only an unrelated argument. -/
theorem c3_witness :
    argValues [("other", ["x"])] "domain" = none ∧
    (none : Option String) ≠ some "application/json" ∧
    handle ["a"] ⟨.post, "/domains", [("other", ["x"])], none⟩
        = (.resp ⟨400, "BAD REQUEST\n", []⟩, ["a"]) :=
  ⟨by decide, by decide,
    c3_post_missing_domain ["a"] [("other", ["x"])] none (by decide)
      (by decide)⟩

/-- C3 counterexample: the handler does return 400 and leave the store
alone, but the body is "BAD REQUEST\n", not "BAD REQUEST". -/
theorem c3_counterexample :
    (handle [] ⟨.post, "/domains", [], none⟩).1.statusOf = some 400 ∧
    (handle [] ⟨.post, "/domains", [], none⟩).1.bodyOf
        = some "BAD REQUEST\n" ∧
    (handle [] ⟨.post, "/domains", [], none⟩).2 = ([] : Store) ∧
    ("BAD REQUEST\n" : String) ≠ "BAD REQUEST" := by decide

/-- C4 (amended): POST /domains carrying a "domain" argument with first
value d (and no JSON Content-Type) returns status 200 (not 201), sets
the Location header to "/domains/" ++ d and returns body "CREATED\n",
regardless of whether d was already present in the store. -/
theorem c4_post_created (s : Store) (args : List (String × List String))
    (ct : Option String) (d : String) (vs : List String)
    (hargs : argValues args "domain" = some (d :: vs))
    (hct : ct ≠ some "application/json") :
    handle s ⟨.post, "/domains", args, ct⟩
        = (.resp ⟨200, "CREATED\n", [("Location", "/domains/" ++ d)]⟩,
           if d ∈ s then s else s ++ [d]) := by
  rw [handle_post_domains, render_POST_arg s args ct d vs hargs]
  simp [OK, getResponse_plain ct _ hct]

/-- C4 witness: posting "x.org" while it is already present. -/
theorem c4_witness :
    argValues [("domain", ["x.org"])] "domain" = some ("x.org" :: []) ∧
    (none : Option String) ≠ some "application/json" ∧
    handle ["x.org"] ⟨.post, "/domains", [("domain", ["x.org"])], none⟩
        = (.resp ⟨200, "CREATED\n", [("Location", "/domains/" ++ "x.org")]⟩,
           if "x.org" ∈ (["x.org"] : Store) then ["x.org"]
           else ["x.org"] ++ ["x.org"]) :=
  ⟨by decide, by decide,
    c4_post_created ["x.org"] [("domain", ["x.org"])] none "x.org" []
      (by decide) (by decide)⟩

/-- C4 counterexample: the status is 200 and the Location header is set
as claimed, but the body is "CREATED\n", not "CREATED". -/
theorem c4_counterexample :
    (handle ["x.org"] ⟨.post, "/domains", [("domain", ["x.org"])], none⟩).1
        = .resp ⟨200, "CREATED\n", [("Location", "/domains/x.org")]⟩ ∧
    ("CREATED\n" : String) ≠ "CREATED" := by decide

/-- C5: with the two stored domains "a" then "b", GET /domains with
Content-Type exactly "application/json" returns the JSON array
["a", "b"], and with any other Content-Type (or none) returns
"a\nb\n". -/
theorem c5_content_negotiation (ct : Option String)
    (hct : ct ≠ some "application/json") :
    (handle ["a", "b"] ⟨.get, "/domains", [], some "application/json"⟩).1
        = .resp ⟨200, "[\"a\", \"b\"]", []⟩ ∧
    (handle ["a", "b"] ⟨.get, "/domains", [], ct⟩).1
        = .resp ⟨200, "a\nb\n", []⟩ := by
  constructor
  · decide
  · have hb : getResponse ct (.strs ["a", "b"]) = "a\nb\n" := by
      rw [getResponse_plain_strs ct _ hct]; rfl
    rw [handle_get_domains]
    simp [OK, hb]

/-- C5 witness: the content-negotiation theorem with the header
absent. -/
theorem c5_witness :
    (none : Option String) ≠ some "application/json" ∧
    ((handle ["a", "b"] ⟨.get, "/domains", [], some "application/json"⟩).1
        = .resp ⟨200, "[\"a\", \"b\"]", []⟩ ∧
     (handle ["a", "b"] ⟨.get, "/domains", [], none⟩).1
        = .resp ⟨200, "a\nb\n", []⟩) :=
  ⟨by decide, c5_content_negotiation none (by decide)⟩

/-- C6 (amended): GET /unknown/path returns status 404; GET / (without
the JSON Content-Type) returns 200 with body "WELCOME\n"; GET /admin
likewise returns 200 with body "ADMIN UI NOT IMPLEMENTED\n"; and every
top-level segment other than "domains" and "admin" resolves to the
welcome resource rather than failing the dispatch. -/
theorem c6_routing_fallback (s : Store) (ct : Option String)
    (hct : ct ≠ some "application/json") :
    (handle s ⟨.get, "/unknown/path", [], ct⟩).1.statusOf = some 404 ∧
    (handle s ⟨.get, "/", [], ct⟩).1 = .resp ⟨200, "WELCOME\n", []⟩ ∧
    (handle s ⟨.get, "/admin", [], ct⟩).1
        = .resp ⟨200, "ADMIN UI NOT IMPLEMENTED\n", []⟩ ∧
    (∀ seg, seg ≠ "domains" → seg ≠ "admin" →
      getChildWithDefault .root seg = .welcome) := by
  have h1 : resolveSegs .root (pathSegments "/unknown/path")
      = .noResource := rfl
  have h2 : resolveSegs .root (pathSegments "/") = .welcome := rfl
  have h3 : resolveSegs .root (pathSegments "/admin") = .admin := rfl
  refine ⟨?_, ?_, ?_, ?_⟩
  · simp [handle, h1, renderRes, Outcome.statusOf, NOT_FOUND]
  · simp [handle, h2, renderRes, OK, getResponse_plain ct _ hct]
  · simp [handle, h3, renderRes, OK, getResponse_plain ct _ hct]
  · intro seg hs1 hs2
    simp [getChildWithDefault, hs1, hs2]

/-- C6 witness: the routing theorem at the empty store with the header
absent. -/
theorem c6_witness :
    (none : Option String) ≠ some "application/json" ∧
    ((handle [] ⟨.get, "/unknown/path", [], none⟩).1.statusOf = some 404 ∧
     (handle [] ⟨.get, "/", [], none⟩).1 = .resp ⟨200, "WELCOME\n", []⟩ ∧
     (handle [] ⟨.get, "/admin", [], none⟩).1
        = .resp ⟨200, "ADMIN UI NOT IMPLEMENTED\n", []⟩ ∧
     (∀ seg, seg ≠ "domains" → seg ≠ "admin" →
       getChildWithDefault .root seg = .welcome)) :=
  ⟨by decide, c6_routing_fallback [] none (by decide)⟩

/-- C6 counterexample: the welcome and admin bodies end in a newline,
so they are not "WELCOME" and "ADMIN UI NOT IMPLEMENTED" as the claim
states. -/
theorem c6_counterexample :
    (handle [] ⟨.get, "/", [], none⟩).1.bodyOf = some "WELCOME\n" ∧
    (handle [] ⟨.get, "/admin", [], none⟩).1.bodyOf
        = some "ADMIN UI NOT IMPLEMENTED\n" ∧
    ("WELCOME\n" : String) ≠ "WELCOME" := by decide

/-- C7 (amended): a PUT request never mutates the store, whatever the
path; when the path resolves to the domains service (and the request has
no JSON Content-Type) the response is status 501 with body
"NOT IMPLEMENTED\n"; when it resolves to the welcome or admin resource,
no repository handler runs at all — the UnsupportedMethod error escapes
to the transport framework. -/
theorem c7_put_rejected (s : Store) (req : Request)
    (hm : req.method = .put) :
    (handle s req).2 = s ∧
    ((resolveSegs .root (pathSegments req.path) = .domains ∧
        req.contentType ≠ some "application/json") →
      (handle s req).1 = .resp ⟨501, "NOT IMPLEMENTED\n", []⟩) ∧
    ((resolveSegs .root (pathSegments req.path) = .welcome ∨
      resolveSegs .root (pathSegments req.path) = .admin) →
      (handle s req).1 = .unsupportedMethod .put) := by
  obtain ⟨m, p, args, ct⟩ := req
  subst hm
  simp only [handle]
  cases hr : resolveSegs .root (pathSegments p)
  case root => simp [renderRes]
  case domains =>
    refine ⟨rfl, ?_, ?_⟩
    · rintro ⟨-, hct⟩
      simp [renderRes, render_PUT, NOT_IMPLEMENTED,
        getResponse_plain ct _ hct]
    · rintro (h1 | h1) <;> simp at h1
  case admin =>
    refine ⟨rfl, ?_, ?_⟩
    · rintro ⟨h1, -⟩; simp at h1
    · rintro -; rfl
  case welcome =>
    refine ⟨rfl, ?_, ?_⟩
    · rintro ⟨h1, -⟩; simp at h1
    · rintro -; rfl
  case noResource => simp [renderRes]

/-- C7 witness: the PUT theorem at the collection path. -/
theorem c7_witness :
    (⟨.put, "/domains", [], none⟩ : Request).method = .put ∧
    ((handle ["a"] ⟨.put, "/domains", [], none⟩).2 = ["a"] ∧
     ((resolveSegs .root (pathSegments "/domains") = .domains ∧
         (none : Option String) ≠ some "application/json") →
       (handle ["a"] ⟨.put, "/domains", [], none⟩).1
          = .resp ⟨501, "NOT IMPLEMENTED\n", []⟩) ∧
     ((resolveSegs .root (pathSegments "/domains") = .welcome ∨
       resolveSegs .root (pathSegments "/domains") = .admin) →
       (handle ["a"] ⟨.put, "/domains", [], none⟩).1
          = .unsupportedMethod .put)) :=
  ⟨rfl, c7_put_rejected ["a"] ⟨.put, "/domains", [], none⟩ rfl⟩

/-- C7 counterexample: PUT to / produces no repository response with
body "NOT IMPLEMENTED" — the welcome handler has no PUT method and the
UnsupportedMethod escapes; even at /domains the body is
"NOT IMPLEMENTED\n". -/
theorem c7_counterexample :
    (handle [] ⟨.put, "/", [], none⟩).1 = .unsupportedMethod .put ∧
    (handle [] ⟨.put, "/", [], none⟩).1.bodyOf ≠ some "NOT IMPLEMENTED" ∧
    (handle [] ⟨.put, "/domains", [], none⟩).1.bodyOf
        = some "NOT IMPLEMENTED\n" := by decide

/-- C8 (amended): the domain name submitted to the store by DELETE is
the path with every occurrence of "/domains/" removed (Python
replace-all); when "/domains/" does not occur again in the remainder
after the leading prefix, this is exactly that remainder, and the
handler checks and, if present, deletes precisely it. -/
theorem c8_delete_extraction (s : Store) (x : String) (ct : Option String)
    (hocc : hasOccur "/domains/".toList x.toList = false) :
    pyReplace ("/domains/" ++ x) "/domains/" "" = x ∧
    handle s ⟨.delete, "/domains/" ++ x, [], ct⟩
        = (if x ∈ s
           then (.resp ⟨200, getResponse ct (.str "DELETED\n"), []⟩,
             wlDelete s x)
           else (.resp ⟨404, getResponse ct (.str "NOT FOUND\n"), []⟩,
             s)) := by
  refine ⟨pyReplace_strip x hocc, ?_⟩
  rw [handle_delete_domains_item, render_DELETE_item s x [] ct hocc]
  by_cases hmem : x ∈ s <;> simp [hmem, OK, NOT_FOUND]

/-- C8 witness: the extraction theorem at the present domain
"example.com". -/
theorem c8_witness :
    hasOccur "/domains/".toList "example.com".toList = false ∧
    (pyReplace ("/domains/" ++ "example.com") "/domains/" ""
        = "example.com" ∧
     handle ["example.com"] ⟨.delete, "/domains/" ++ "example.com", [], none⟩
        = (if "example.com" ∈ (["example.com"] : Store)
           then (.resp ⟨200, getResponse none (.str "DELETED\n"), []⟩,
             wlDelete ["example.com"] "example.com")
           else (.resp ⟨404, getResponse none (.str "NOT FOUND\n"), []⟩,
             ["example.com"]))) :=
  ⟨by decide, c8_delete_extraction ["example.com"] "example.com" none
    (by decide)⟩

/-- C8 counterexample: for the path /domains/a/domains/b the remainder
after the leading prefix is "a/domains/b", but the extraction removes
the later occurrence too and yields "ab"; a store holding exactly
"a/domains/b" is answered NOT FOUND and left unchanged, so the submitted
name was not the remainder. -/
theorem c8_counterexample :
    pyReplace "/domains/a/domains/b" "/domains/" "" = "ab" ∧
    ("ab" : String) ≠ "a/domains/b" ∧
    handle ["a/domains/b"] ⟨.delete, "/domains/a/domains/b", [], none⟩
        = (.resp ⟨404, "NOT FOUND\n", []⟩, ["a/domains/b"]) := by decide

/-- C9: the response encoder is pure and total: for every value shape
the handlers produce (a string or a list of strings) and every
Content-Type header value, including an absent one, it produces a body
string; in this embedding it is a total function, so the result exists
and is unique by definition. -/
theorem c9_encoder_total (v : RespValue) (ct : Option String) :
    ∃ b : String, getResponse ct v = b :=
  ⟨getResponse ct v, rfl⟩

/-- C10: with the store empty, GET /domains without the JSON
Content-Type returns the body "\n" — the join of the empty sequence
plus the trailing newline — and not the empty string. -/
theorem c10_get_empty_store (ct : Option String)
    (hct : ct ≠ some "application/json") :
    (handle [] ⟨.get, "/domains", [], ct⟩).1 = .resp ⟨200, "\n", []⟩ ∧
    ("\n" : String) ≠ "" := by
  constructor
  · have hb : getResponse ct (.strs []) = "\n" := by
      rw [getResponse_plain_strs ct _ hct]; rfl
    rw [handle_get_domains]
    simp [OK, hb]
  · decide

/-- C10 witness: the empty-store theorem with the header absent. -/
theorem c10_witness :
    (none : Option String) ≠ some "application/json" ∧
    ((handle [] ⟨.get, "/domains", [], none⟩).1 = .resp ⟨200, "\n", []⟩ ∧
     ("\n" : String) ≠ "") :=
  ⟨by decide, c10_get_empty_store none (by decide)⟩

end DnsFilter
